import Mathlib

/-!
Verification of the fuzzy rule-based diabetes-risk system
(`notebook/fuzzy_memberships.py`, `notebook/fuzzy_system.py`).

All arithmetic is carried out over `ℚ`.  Membership functions follow the
skfuzzy `trimf`/`trapmf` semantics used by the source; universes are the
101-point `linspace` grids built in `fuzzy_memberships.py`; inference is the
Mamdani pipeline of `build_system`/`compute_scores` (min-AND rule strength,
min implication, max aggregation, discrete centroid over the output grid).
The reference CSV `../data/diabetes_clean.csv` is not part of the repository
tree, so the calibrator takes its graceful-degradation path and every
data-driven quantile tuple is the fixed default `(0, 1/4, 1/2, 3/4, 1)`;
quantile calibration is nevertheless modelled in full generality.
-/

namespace FuzzyDiab

/-- Triangular membership function, skfuzzy `trimf` semantics: value `1` at
`x = b`, linear ramps strictly inside `(a,b)` and `(b,c)`, `0` elsewhere
(degenerate `a = b` / `b = c` legs give one-sided ramps). -/
def trimf (a b c x : ℚ) : ℚ :=
  if x = b then 1
  else if a < x ∧ x < b then (x - a) / (b - a)
  else if b < x ∧ x < c then (c - x) / (c - b)
  else 0

/-- Trapezoidal membership function, skfuzzy `trapmf` semantics: plateau `1`
on `[b,c]`, linear ramps strictly inside `(a,b)` and `(c,d)`, `0` elsewhere. -/
def trapmf (a b c d x : ℚ) : ℚ :=
  if b ≤ x ∧ x ≤ c then 1
  else if a < x ∧ x < b then (x - a) / (b - a)
  else if c < x ∧ x < d then (d - x) / (d - c)
  else 0

/-- Computable binary minimum on `ℚ` (Python `min` semantics). -/
def minQ (a b : ℚ) : ℚ := if a ≤ b then a else b

/-- Computable binary maximum on `ℚ` (Python `max` semantics). -/
def maxQ (a b : ℚ) : ℚ := if a ≤ b then b else a

/-- A calibrated 5-tuple `(min, q1, q2, q3, max)` as produced by
`_compute_quantiles`. -/
structure Quint where
  qmin : ℚ
  q1 : ℚ
  q2 : ℚ
  q3 : ℚ
  qmax : ℚ
deriving DecidableEq

/-- The fixed fallback quantile tuple `(0.0, 0.25, 0.5, 0.75, 1.0)`. -/
def defaultQuint : Quint := ⟨0, 1/4, 1/2, 3/4, 1⟩

/-- Insert into a sorted list (ascending). -/
def insertLe (x : ℚ) : List ℚ → List ℚ
  | [] => [x]
  | y :: ys => if x ≤ y then x :: y :: ys else y :: insertLe x ys

/-- Insertion sort, ascending. -/
def sortQ (l : List ℚ) : List ℚ := l.foldr insertLe []

/-- Minimum of a list of rationals (`0` on the empty list; only used on
nonempty input, mirroring `series.min()`). -/
def listMin : List ℚ → ℚ
  | [] => 0
  | x :: xs => xs.foldl minQ x

/-- Maximum of a list of rationals, mirroring `series.max()`. -/
def listMax : List ℚ → ℚ
  | [] => 0
  | x :: xs => xs.foldl maxQ x

/-- `p`-quantile with linear interpolation between order statistics
(pandas `Series.quantile` default): position `h = (n-1)p`, value
`v[⌊h⌋] + (h-⌊h⌋)(v[⌊h⌋+1] - v[⌊h⌋])` on the sorted sample. -/
def quantileLerp (l : List ℚ) (p : ℚ) : ℚ :=
  let v := sortQ l
  let n := v.length
  let h : ℚ := ((n : ℚ) - 1) * p
  let k : ℕ := (Int.floor h).toNat
  let base := v.getD k 0
  base + (h - (k : ℚ)) * (v.getD (k + 1) base - base)

/-- `_compute_quantiles`: drop missing values; on an empty remainder return
the default tuple, otherwise `(min, q1, q2, q3, max)` of the clean sample. -/
def computeQuantiles (vals : List (Option ℚ)) : Quint :=
  let s := vals.filterMap id
  if s.isEmpty then defaultQuint
  else ⟨listMin s, quantileLerp s (1/4), quantileLerp s (1/2),
        quantileLerp s (3/4), listMax s⟩

/-- The columns calibrated by `_load_data_quantiles`. -/
def calibCols : List String := ["BMI", "Age", "GenHlth"]

/-- A reference table: named columns of possibly-missing rational samples.
`none` at the table level models a missing or unreadable dataset (or an
unavailable pandas), which the source turns into an exception caught by
`_load_data_quantiles`. -/
abbrev Table := List (String × List (Option ℚ))

/-- `_load_data_quantiles`: on any failure, all three columns get the default
tuple; otherwise a present column is summarised by `_compute_quantiles` and an
absent one gets the default tuple. -/
def loadDataQuantiles (data : Option Table) : List (String × Quint) :=
  match data with
  | none => calibCols.map (fun c => (c, defaultQuint))
  | some table =>
      calibCols.map (fun c =>
        (c, match table.lookup c with
            | none => defaultQuint
            | some vals => computeQuantiles vals))

/-- The module-level `_Q`: in this tree the reference CSV is absent, so the
loader takes its fallback path. -/
def qTable : List (String × Quint) := loadDataQuantiles none

def bmiQ : Quint := (qTable.lookup "BMI").getD defaultQuint
def ageQ : Quint := (qTable.lookup "Age").getD defaultQuint
def ghQ : Quint := (qTable.lookup "GenHlth").getD defaultQuint

-- BMI membership functions (percentile-based)
def bmi_under (x : ℚ) : ℚ := trimf bmiQ.qmin bmiQ.qmin bmiQ.q1 x
def bmi_healthy (x : ℚ) : ℚ := trimf bmiQ.q1 bmiQ.q2 bmiQ.q3 x
def bmi_over (x : ℚ) : ℚ := trimf bmiQ.q2 ((bmiQ.q2 + bmiQ.q3) / 2) bmiQ.qmax x
def bmi_obese (x : ℚ) : ℚ :=
  trapmf bmiQ.q3 ((bmiQ.q3 + bmiQ.qmax) / 2) bmiQ.qmax bmiQ.qmax x

-- Age membership functions (percentile-based)
def age_young (x : ℚ) : ℚ := trimf ageQ.qmin ageQ.qmin ageQ.q2 x
def age_middle (x : ℚ) : ℚ := trimf ageQ.q1 ageQ.q2 ageQ.q3 x
def age_old (x : ℚ) : ℚ :=
  trapmf ageQ.q3 ((ageQ.q3 + ageQ.qmax) / 2) ageQ.qmax ageQ.qmax x

-- Binary variables: fixed triangles over [0,1]
def bp_normal (x : ℚ) : ℚ := trimf 0 0 (1/2) x
def bp_high (x : ℚ) : ℚ := trimf (1/2) 1 1 x
def smoke_no (x : ℚ) : ℚ := trimf 0 0 (1/2) x
def smoke_yes (x : ℚ) : ℚ := trimf (1/2) 1 1 x
def act_inactive (x : ℚ) : ℚ := trimf 0 0 (1/2) x
def act_active (x : ℚ) : ℚ := trimf (1/2) 1 1 x
def chol_normal (x : ℚ) : ℚ := trimf 0 0 (1/2) x
def chol_high (x : ℚ) : ℚ := trimf (1/2) 1 1 x
def cardio_no (x : ℚ) : ℚ := trimf 0 0 (1/2) x
def cardio_yes (x : ℚ) : ℚ := trimf (1/2) 1 1 x

-- GenHlth membership functions (percentile-based)
def genhlth_good (x : ℚ) : ℚ := trimf ghQ.qmin ghQ.qmin ghQ.q1 x
def genhlth_avg (x : ℚ) : ℚ := trimf ghQ.q1 ghQ.q2 ghQ.q3 x
def genhlth_poor (x : ℚ) : ℚ :=
  trapmf ghQ.q3 ((ghQ.q3 + ghQ.qmax) / 2) ghQ.qmax ghQ.qmax x

-- Risk output: fixed scale over [0,1]
def risk_vlow (x : ℚ) : ℚ := trimf 0 0 (1/5) x
def risk_low (x : ℚ) : ℚ := trimf (1/10) (1/4) (2/5) x
def risk_med (x : ℚ) : ℚ := trimf (3/10) (1/2) (7/10) x
def risk_high (x : ℚ) : ℚ := trimf (3/5) (3/4) (9/10) x
def risk_vhigh (x : ℚ) : ℚ := trimf (4/5) 1 1 x

/-- A crisp input record: the eight antecedent variables of `build_system`. -/
structure Assignment where
  bmi : ℚ
  age : ℚ
  highbp : ℚ
  smoker : ℚ
  physact : ℚ
  highchol : ℚ
  heart : ℚ
  genhlth : ℚ
deriving DecidableEq

/-- The `(variable, label)` leaf terms registered on the antecedents. -/
inductive Term where
  | bmiUnder | bmiHealthy | bmiOver | bmiObese
  | ageYoung | ageMiddle | ageOld
  | bpNormal | bpHigh
  | smokeNo | smokeYes
  | actInactive | actActive
  | cholNormal | cholHigh
  | cardioNo | cardioYes
  | ghGood | ghAvg | ghPoor
deriving DecidableEq

/-- Fuzzification: degree of one labelled set at the record's crisp value. -/
def termDegree (a : Assignment) : Term → ℚ
  | .bmiUnder => bmi_under a.bmi
  | .bmiHealthy => bmi_healthy a.bmi
  | .bmiOver => bmi_over a.bmi
  | .bmiObese => bmi_obese a.bmi
  | .ageYoung => age_young a.age
  | .ageMiddle => age_middle a.age
  | .ageOld => age_old a.age
  | .bpNormal => bp_normal a.highbp
  | .bpHigh => bp_high a.highbp
  | .smokeNo => smoke_no a.smoker
  | .smokeYes => smoke_yes a.smoker
  | .actInactive => act_inactive a.physact
  | .actActive => act_active a.physact
  | .cholNormal => chol_normal a.highchol
  | .cholHigh => chol_high a.highchol
  | .cardioNo => cardio_no a.heart
  | .cardioYes => cardio_yes a.heart
  | .ghGood => genhlth_good a.genhlth
  | .ghAvg => genhlth_avg a.genhlth
  | .ghPoor => genhlth_poor a.genhlth

/-- Rule antecedent expression tree: terms combined with AND (min) /
OR (max); the source's rules use only AND. -/
inductive AExp where
  | term : Term → AExp
  | and : AExp → AExp → AExp
  | or : AExp → AExp → AExp
deriving DecidableEq

/-- Recursive antecedent evaluation: AND is min, OR is max. -/
def strength (a : Assignment) : AExp → ℚ
  | .term t => termDegree a t
  | .and p q => minQ (strength a p) (strength a q)
  | .or p q => maxQ (strength a p) (strength a q)

/-- Output linguistic labels of the `Risk` consequent. -/
inductive RiskLabel where
  | vlow | low | med | high | vhigh
deriving DecidableEq

/-- One fuzzy rule: antecedent tree and consequent output label. -/
structure Rule where
  antecedent : AExp
  consequent : RiskLabel
deriving DecidableEq

def tm : Term → AExp := AExp.term

/-- The VLOW / LOW block of `build_system` (5 rules; `&` is left-associative
in the source). -/
def vlowLowRules : List Rule :=
  [ ⟨.and (.and (.and (.and (tm .bmiHealthy) (tm .ageYoung)) (tm .bpNormal))
        (tm .smokeNo)) (tm .actActive), .vlow⟩,
    ⟨.and (.and (tm .bmiUnder) (tm .actActive)) (tm .smokeNo), .vlow⟩,
    ⟨.and (.and (tm .bmiHealthy) (tm .ageMiddle)) (tm .actActive), .low⟩,
    ⟨.and (tm .bmiHealthy) (tm .smokeYes), .low⟩,
    ⟨.and (.and (tm .bmiOver) (tm .ageYoung)) (tm .actActive), .low⟩ ]

/-- The MEDIUM block of `build_system` (6 rules). -/
def medRules : List Rule :=
  [ ⟨.and (tm .bmiOver) (tm .actInactive), .med⟩,
    ⟨.and (.and (tm .bmiObese) (tm .ageYoung)) (tm .actActive), .med⟩,
    ⟨.and (.and (tm .bpHigh) (tm .ageYoung)) (tm .actActive), .med⟩,
    ⟨.and (.and (tm .bmiHealthy) (tm .ageOld)) (tm .actInactive), .med⟩,
    ⟨.and (tm .smokeYes) (tm .actInactive), .med⟩,
    ⟨.and (tm .bmiOver) (tm .ageMiddle), .med⟩ ]

/-- The HIGH block of `build_system` (4 rules). -/
def highRules : List Rule :=
  [ ⟨.and (tm .bmiObese) (tm .actInactive), .high⟩,
    ⟨.and (.and (tm .bmiOver) (tm .ageOld)) (tm .actInactive), .high⟩,
    ⟨.and (tm .bpHigh) (tm .smokeYes), .high⟩,
    ⟨.and (tm .bpHigh) (tm .ageOld), .high⟩ ]

/-- The VERY HIGH block of `build_system` (3 rules). -/
def vhighRules : List Rule :=
  [ ⟨.and (.and (tm .bmiObese) (tm .bpHigh)) (tm .ageOld), .vhigh⟩,
    ⟨.and (.and (tm .bmiObese) (tm .bpHigh)) (tm .smokeYes), .vhigh⟩,
    ⟨.and (.and (tm .bpHigh) (tm .ageOld)) (tm .actInactive), .vhigh⟩ ]

/-- The comorbidity-amplifier block of `build_system`. -/
def amplifierRules : List Rule :=
  [ ⟨.and (tm .cardioYes) (tm .bmiOver), .high⟩,
    ⟨.and (tm .cardioYes) (tm .bpHigh), .high⟩,
    ⟨.and (tm .cardioYes) (tm .ageOld), .high⟩,
    ⟨.and (tm .cholHigh) (tm .bmiOver), .high⟩,
    ⟨.and (tm .cholHigh) (tm .bpHigh), .high⟩,
    ⟨.and (tm .ghPoor) (tm .bmiOver), .high⟩,
    ⟨.and (tm .ghPoor) (tm .ageOld), .high⟩,
    ⟨.and (.and (tm .ghGood) (tm .actActive)) (tm .bmiHealthy), .low⟩ ]

/-- The full rule list handed to `ctrl.ControlSystem`, in source order. -/
def ruleBase : List Rule :=
  vlowLowRules ++ medRules ++ highRules ++ vhighRules ++ amplifierRules

/-- The output membership function attached to each `Risk` label. -/
def riskMF : RiskLabel → ℚ → ℚ
  | .vlow => risk_vlow
  | .low => risk_low
  | .med => risk_med
  | .high => risk_high
  | .vhigh => risk_vhigh

/-- Implication clip for one output label: max of the firing strengths of the
rules with that consequent (`0` when none fires). -/
def clipFor (a : Assignment) (l : RiskLabel) : ℚ :=
  (ruleBase.filter (fun r => decide (r.consequent = l))).foldl
    (fun m r => maxQ m (strength a r.antecedent)) 0

/-- The `i`-th sample point of the 101-point output universe
`linspace 0 1 101`. -/
def outPoint (i : ℕ) : ℚ := (i : ℚ) / 100

/-- Aggregated output membership at output sample `x`, from the five label
clips: pointwise max over labels of the min-clipped output sets. -/
def aggFromClips (cv cl cm ch cvh x : ℚ) : ℚ :=
  maxQ (minQ (risk_vlow x) cv)
    (maxQ (minQ (risk_low x) cl)
      (maxQ (minQ (risk_med x) cm)
        (maxQ (minQ (risk_high x) ch) (minQ (risk_vhigh x) cvh))))

/-- Aggregated output membership curve of a record at output sample `i`. -/
def aggregateAt (a : Assignment) (i : ℕ) : ℚ :=
  aggFromClips (clipFor a .vlow) (clipFor a .low) (clipFor a .med)
    (clipFor a .high) (clipFor a .vhigh) (outPoint i)

/-- Force a rational to constructor form before sharing it (evaluation
helper; definitionally the identity by structure eta). -/
def withRat (q : ℚ) (k : ℚ → Option ℚ) : Option ℚ :=
  match q with
  | .mk' n d h h' => k (.mk' n d h h')

/-- Centroid defuzzification from precomputed clips: discrete centroid
`Σ xᵢ·μ(xᵢ) / Σ μ(xᵢ)` over the output grid; `none` when the aggregate is
identically zero (skfuzzy raises in that case). -/
def centroidFromClips (cv cl cm ch cvh : ℚ) : Option ℚ :=
  let den := ((List.range 101).map (fun i => aggFromClips cv cl cm ch cvh (outPoint i))).sum
  let num := ((List.range 101).map
    (fun i => outPoint i * aggFromClips cv cl cm ch cvh (outPoint i))).sum
  if den = 0 then none else some (num / den)

/-- One full Mamdani inference (`sim.compute()` + `sim.output['Risk']`):
fuzzify, fire all rules, clip, aggregate, defuzzify.  `none` models the
exception skfuzzy raises when no rule fires with positive strength. -/
def infer (a : Assignment) : Option ℚ :=
  withRat (clipFor a .vlow) (fun cv =>
    withRat (clipFor a .low) (fun cl =>
      withRat (clipFor a .med) (fun cm =>
        withRat (clipFor a .high) (fun ch =>
          withRat (clipFor a .vhigh) (fun cvh =>
            centroidFromClips cv cl cm ch cvh)))))

/-- Batch-path score of one well-formed record: the inferred risk, with the
`except`-clause fallback `0.5` when inference raises. -/
def scoreOf (a : Assignment) : ℚ := (infer a).getD (1/2)

/-- One dataframe row: `none` models a malformed record (missing or
non-numeric fields) whose processing raises before `sim.compute()`. -/
abbrev Record := Option Assignment

/-- `compute_scores` body for one row: any exception inside the `try` block
(malformed row or zero-firing inference) is caught and replaced by `0.5`. -/
def scoreRecord : Record → ℚ
  | none => 1/2
  | some a => scoreOf a

/-- `compute_scores`: iterate the rows in order, appending one score each. -/
def computeScores : List Record → List ℚ
  | [] => []
  | r :: rs => scoreRecord r :: computeScores rs

/-- The mutable state of a `ControlSystemSimulation`: the crisp inputs set so
far (latest setting first, as an association list). -/
structure SimState where
  inputs : List (String × ℚ)

/-- `sim.reset()`: discard all previously set inputs. -/
def SimState.reset (_s : SimState) : SimState := ⟨[]⟩

/-- `sim.input[name] = v`. -/
def SimState.setInput (s : SimState) (name : String) (v : ℚ) : SimState :=
  ⟨(name, v) :: s.inputs⟩

/-- Collect the eight required inputs from the simulation state; `none` when
one is missing (skfuzzy would raise on `compute`). -/
def readAssignment (s : SimState) : Option Assignment := do
  let b ← s.inputs.lookup "BMI"
  let ag ← s.inputs.lookup "Age"
  let bp ← s.inputs.lookup "HighBP"
  let sm ← s.inputs.lookup "Smoker"
  let pa ← s.inputs.lookup "PhysActivity"
  let ch ← s.inputs.lookup "HighChol"
  let hd ← s.inputs.lookup "HeartDiseaseorAttack"
  let gh ← s.inputs.lookup "GenHlth"
  pure ⟨b, ag, bp, sm, pa, ch, hd, gh⟩

/-- One iteration of the `compute_scores` loop against an explicit simulation
state: reset, set the eight inputs from the row, compute (with the exception
fallback `0.5`), returning the score and the state left behind. -/
def runRecord (s : SimState) (a : Assignment) : ℚ × SimState :=
  let s1 := ((((((((s.reset.setInput "BMI" a.bmi).setInput "Age" a.age).setInput
    "HighBP" a.highbp).setInput "Smoker" a.smoker).setInput
    "PhysActivity" a.physact).setInput "HighChol" a.highchol).setInput
    "HeartDiseaseorAttack" a.heart).setInput "GenHlth" a.genhlth)
  match readAssignment s1 with
  | some b => ((infer b).getD (1/2), s1)
  | none => (1/2, s1)

/-- The `--metric` command-line selector. -/
inductive Metric where
  | f1 | accuracy
deriving DecidableEq

/-- `(scores >= thr).astype(int)`: predicted positive iff score ≥ t. -/
def predsAt (scores : List ℚ) (t : ℚ) : List Bool :=
  scores.map (fun s => decide (t ≤ s))

/-- True positives of a prediction vector against labels. -/
def countTP (preds labels : List Bool) : ℕ :=
  ((preds.zip labels).filter (fun pl => pl.1 && pl.2)).length

/-- False positives. -/
def countFP (preds labels : List Bool) : ℕ :=
  ((preds.zip labels).filter (fun pl => pl.1 && !pl.2)).length

/-- False negatives. -/
def countFN (preds labels : List Bool) : ℕ :=
  ((preds.zip labels).filter (fun pl => !pl.1 && pl.2)).length

/-- sklearn `f1_score` with `zero_division=0`:
`2·TP / (2·TP + FP + FN)`, and `0` when that denominator is zero. -/
def f1Score (preds labels : List Bool) : ℚ :=
  let tp := countTP preds labels
  let fp := countFP preds labels
  let fn := countFN preds labels
  if 2 * tp + fp + fn = 0 then 0
  else ((2 * tp : ℕ) : ℚ) / ((2 * tp + fp + fn : ℕ) : ℚ)

/-- sklearn `accuracy_score`: fraction of positions where prediction and
label agree (`0` on empty input, which sklearn rejects). -/
def accuracyScore (preds labels : List Bool) : ℚ :=
  if labels.length = 0 then 0
  else ((((preds.zip labels).filter (fun pl => pl.1 == pl.2)).length : ℕ) : ℚ) /
    ((labels.length : ℕ) : ℚ)

/-- `np.arange(start, stop, step)` (positive step): the half-open grid
`start + i·step` for `i < ⌈(stop-start)/step⌉`. -/
def arangeQ (start stop step : ℚ) : List ℚ :=
  let n : ℕ := if 0 < step then (Int.ceil ((stop - start) / step)).toNat else 0
  (List.range n).map (fun i => start + (i : ℚ) * step)

/-- The threshold-selection loop of `main`: fold over the grid keeping the
first threshold of maximal metric, starting from `(0.5, -1)`.  Faithful to
the source: `args.metric` is parsed but the loop always computes
`f1_score`, so the `metric` argument is ignored. -/
def selectThreshold (metric : Metric) (scores : List ℚ) (labels : List Bool)
    (start stop step : ℚ) : ℚ × ℚ :=
  (arangeQ start stop step).foldl
    (fun best t =>
      let m := f1Score (predsAt scores t) labels
      if best.2 < m then (t, m) else best)
    (1/2, -1)

/-- Modelled from the spec: `select_threshold(scores, labels, grid, metric)`
computing the metric *chosen by the caller* (F1 or accuracy) at each grid
threshold — the behaviour §4.5 ascribes to the source loop. -/
def specSelectThreshold (metric : Metric) (scores : List ℚ) (labels : List Bool)
    (start stop step : ℚ) : ℚ × ℚ :=
  (arangeQ start stop step).foldl
    (fun best t =>
      let m := match metric with
        | .f1 => f1Score (predsAt scores t) labels
        | .accuracy => accuracyScore (predsAt scores t) labels
      if best.2 < m then (t, m) else best)
    (1/2, -1)

/-- Boolean check that a list of rationals is pairwise non-decreasing. -/
def nondecr : List ℚ → Bool
  | [] => true
  | [_] => true
  | a :: b :: rest => (decide (a ≤ b) && nondecr (b :: rest))

/-- The BMI values swept in the monotonicity check: every sample point of
the BMI universe from the `healthy` midpoint (`q2 = 1/2`) up to the top of
the `obese` region (`max = 1`). -/
def bmiSweep : List ℚ := (List.range 51).map (fun i => ((i + 50 : ℕ) : ℚ) / 100)

/-- The fixed healthy baseline of the monotonicity check: Age at the
`young` support midpoint, GenHlth at the `good` support midpoint,
HighBP = 0, Smoker = 0, PhysActivity = 1, HighChol = 0,
HeartDiseaseorAttack = 0, with BMI free. -/
def baselineAt (b : ℚ) : Assignment := ⟨b, 1/4, 0, 0, 1, 0, 0, 1/8⟩

/-- An in-universe record on which every membership degree is `0`:
BMI at the `under`/`healthy` corner `1/4`, Age anywhere with
`middle`/`old` zero, all binary inputs at the dead point `1/2`, GenHlth at
the `avg`/`poor` corner `3/4` — so no rule fires. -/
def deadAssignment : Assignment := ⟨1/4, 1/4, 1/2, 1/2, 1/2, 1/2, 1/2, 3/4⟩

/-- A record on which only the `med`-consequent rules fire (clip `1`), so
the aggregate is the symmetric `risk_med` triangle and the discrete centroid
is exactly `1/2`. -/
def pureMedAssignment : Assignment := ⟨3/4, 0, 0, 1, 0, 0, 0, 1/2⟩

/-- A record whose batch processing raises: a malformed row, or a
well-formed row on which `sim.compute()` raises because no rule fired. -/
def recordRaises : Record → Prop
  | none => True
  | some a => infer a = none

set_option maxRecDepth 1000000

theorem withRat_eq (q : ℚ) (k : ℚ → Option ℚ) : withRat q k = k q := by
  rcases q with ⟨n, d, h1, h2⟩
  rfl

theorem infer_eq_centroid (a : Assignment) :
    infer a = centroidFromClips (clipFor a .vlow) (clipFor a .low)
      (clipFor a .med) (clipFor a .high) (clipFor a .vhigh) := by
  simp only [infer, withRat_eq]

theorem computeScores_length (rs : List Record) :
    (computeScores rs).length = rs.length := by
  induction rs with
  | nil => rfl
  | cons r rs ih => simp [computeScores, ih]

theorem computeScores_getD (rs : List Record) (i : ℕ) (h : i < rs.length) :
    (computeScores rs).getD i 0 = scoreRecord (rs.getD i none) := by
  induction rs generalizing i with
  | nil => simp at h
  | cons r rs ih =>
    cases i with
    | zero => rfl
    | succ j =>
      have hj : j < rs.length := by simpa using h
      simpa [computeScores] using ih j hj

theorem nondecr_iff_chain (l : List ℚ) :
    nondecr l = true ↔ List.Chain' (fun u v => u ≤ v) l := by
  match l with
  | [] => simp [nondecr]
  | [_] => simp [nondecr]
  | a :: b :: rest =>
    rw [List.chain'_cons, ← nondecr_iff_chain (b :: rest)]
    simp [nondecr]

/-- C1, counterexample: the rule base built by `build_system` does not
consist of 24 rules with 6 comorbidity amplifiers — it has 26 rules of
which 8 are comorbidity amplifiers. -/
theorem ruleBase_count_cx :
    ¬ (ruleBase.length = 24 ∧ amplifierRules.length = 6) := by decide

/-- C1, amended: the rule base has exactly 26 rules — 2 `vlow` + 3 `low`
tier rules, 6 `med`, 4 `high`, 3 `vhigh` — plus 8 comorbidity-amplifier
rules of which 7 push toward `high` and exactly one is the protective rule
with consequent `low` firing on GenHlth good AND PhysActivity active AND
BMI healthy. -/
theorem ruleBase_partition :
    ruleBase.length = 26 ∧
    ruleBase = vlowLowRules ++ medRules ++ highRules ++ vhighRules ++ amplifierRules ∧
    vlowLowRules.map Rule.consequent = [.vlow, .vlow, .low, .low, .low] ∧
    medRules.map Rule.consequent = [.med, .med, .med, .med, .med, .med] ∧
    highRules.map Rule.consequent = [.high, .high, .high, .high] ∧
    vhighRules.map Rule.consequent = [.vhigh, .vhigh, .vhigh] ∧
    amplifierRules.map Rule.consequent =
      [.high, .high, .high, .high, .high, .high, .high, .low] ∧
    amplifierRules.filter (fun r => decide (r.consequent = .low)) =
      [⟨.and (.and (tm .ghGood) (tm .actActive)) (tm .bmiHealthy), .low⟩] := by
  refine ⟨by decide, rfl, by decide, by decide, by decide, by decide, by decide, by decide⟩

/-- C2, divergence witness: the threshold loop of `main` ignores the parsed
`--metric` selector and always optimises F1.  On scores `[0.3]`, labels
`[0]`, grid `(0.2, 0.8, 0.2)`, the code returns threshold `0.2` (first grid
point, F1 = 0 everywhere) for both selector values, while the behaviour
the spec describes for `metric = accuracy` selects threshold `0.4` with
accuracy `1`. -/
theorem metric_selector_ignored :
    selectThreshold .accuracy [3/10] [false] (1/5) (4/5) (1/5) = (1/5, 0) ∧
    selectThreshold .f1 [3/10] [false] (1/5) (4/5) (1/5) = (1/5, 0) ∧
    specSelectThreshold .accuracy [3/10] [false] (1/5) (4/5) (1/5) = (2/5, 1) := by
  refine ⟨by decide!, by decide!, by decide!⟩

/-- C6, counterexample: the `good` membership of GenHlth is not the Age
`young` pattern `trimf (min, min, q2)`: the two differ at `x = 1/4`
(the source's `genhlth_good` uses `q1`, giving `0` there, while the
claimed shape gives `1/2`). -/
theorem genhlth_good_shape_cx :
    ¬ (∀ x : ℚ, genhlth_good x = trimf ghQ.qmin ghQ.qmin ghQ.q2 x) := by
  intro h
  exact absurd (h (1/4)) (by decide!)

/-- C6, amended: GenHlth's `good` is the triangle `(min, min, q1)` — one
quantile narrower than the Age `young` pattern — while `avg` is the
triangle `(q1, q2, q3)` and `poor` the trapezoid
`(q3, mid(q3,max), max, max)` exactly as in the Age pattern. -/
theorem genhlth_shapes :
    (∀ x : ℚ, genhlth_good x = trimf ghQ.qmin ghQ.qmin ghQ.q1 x) ∧
    (∀ x : ℚ, genhlth_avg x = trimf ghQ.q1 ghQ.q2 ghQ.q3 x) ∧
    (∀ x : ℚ, genhlth_poor x =
      trapmf ghQ.q3 ((ghQ.q3 + ghQ.qmax) / 2) ghQ.qmax ghQ.qmax x) ∧
    genhlth_good 0 = 1 ∧ genhlth_good (1/4) = 0 ∧
    trimf ghQ.qmin ghQ.qmin ghQ.q2 (1/4) = 1/2 := by
  refine ⟨fun x => rfl, fun x => rfl, fun x => rfl, by decide!, by decide!, by decide!⟩

/-- C7, counterexample: no flag or warning distinguishes a fallback score
from a computed one — a record on which inference raises (no rule fires)
and a record whose inference genuinely computes `0.5` produce *identical*
batch output. -/
theorem fallback_indistinguishable_cx :
    infer deadAssignment = none ∧
    infer pureMedAssignment = some (1/2) ∧
    computeScores [some deadAssignment] = computeScores [some pureMedAssignment] := by
  refine ⟨by decide!, by decide!, by decide!⟩

/-- C7, amended: every fallback path is silent — the batch scorer emits the
bare value `0.5` for a record whose inference raises, and the calibrator
returns the bare default tuple on missing data; neither result carries any
warning or flag, so a degraded score is not distinguishable downstream. -/
theorem fallback_silent :
    computeScores [some deadAssignment] = [1/2] ∧
    infer deadAssignment = none ∧
    (loadDataQuantiles none).lookup "BMI" = some defaultQuint := by
  refine ⟨by decide!, by decide!, by decide!⟩

/-- C8, confirmed: inference through the batch loop is deterministic and
stateless — `sim.reset()` runs before the inputs are set, so the score of a
record does not depend on the simulation state left by earlier records, and
re-running the same record on the state it left behind reproduces the same
score exactly. -/
theorem infer_deterministic_stateless :
    ∀ (s s' : SimState) (a : Assignment),
      (runRecord s a).1 = (runRecord s' a).1 ∧
      (runRecord ((runRecord s a).2) a).1 = (runRecord s a).1 :=
  fun _ _ _ => ⟨rfl, rfl⟩

/-- C10, confirmed: on an empty threshold grid (`start ≥ stop` with positive
step) `np.arange` is empty, the selection loop runs zero iterations, and
the batch procedure proceeds with the default threshold `0.5` and best
metric `-1` instead of failing. -/
theorem empty_grid_default (start stop step : ℚ) (h1 : stop ≤ start)
    (h2 : 0 < step) (metric : Metric) (scores : List ℚ) (labels : List Bool) :
    arangeQ start stop step = [] ∧
    selectThreshold metric scores labels start stop step = (1/2, -1) := by
  have hq : (stop - start) / step ≤ 0 :=
    div_nonpos_of_nonpos_of_nonneg (sub_nonpos.mpr h1) h2.le
  have hc : (Int.ceil ((stop - start) / step)).toNat = 0 :=
    Int.toNat_of_nonpos (Int.ceil_le.mpr (by exact_mod_cast hq))
  have hgrid : arangeQ start stop step = [] := by
    simp [arangeQ, h2, hc]
  exact ⟨hgrid, by simp [selectThreshold, hgrid]⟩

/-- C3, confirmed: whenever the aggregated output membership curve is zero
at every sample point of the output universe (no rule fires with positive
strength), the batch-path result for that record is exactly `0.5` — the
midpoint of the output universe — rather than a division by zero or a
propagated failure. -/
theorem zero_firing_fallback (a : Assignment)
    (h : ∀ i, i < 101 → aggregateAt a i = 0) :
    scoreRecord (some a) = 1/2 := by
  have hden : ((List.range 101).map (fun i =>
      aggFromClips (clipFor a .vlow) (clipFor a .low) (clipFor a .med)
        (clipFor a .high) (clipFor a .vhigh) (outPoint i))).sum = 0 := by
    apply List.sum_eq_zero
    intro x hx
    simp only [List.mem_map, List.mem_range] at hx
    obtain ⟨i, hi, rfl⟩ := hx
    exact h i hi
  have hinf : infer a = none := by
    rw [infer_eq_centroid]
    simp only [centroidFromClips]
    rw [hden]
    simp
  show scoreOf a = 1/2
  simp [scoreOf, hinf]

/-- C3, witness: the in-universe dead record has an identically-zero
aggregate and scores exactly `0.5`. -/
theorem zero_firing_fallback_witness :
    (∀ i, i < 101 → aggregateAt deadAssignment i = 0) ∧
    scoreRecord (some deadAssignment) = 1/2 :=
  ⟨by decide!, zero_firing_fallback deadAssignment (by decide!)⟩

/-- C4, confirmed: `compute_scores` yields exactly one score per input
record in input order — the `i`-th output is the score of the `i`-th
record — and any record whose inference raises (malformed row, or
zero-firing computation) receives the fallback `0.5` instead of aborting
the batch; no record is dropped. -/
theorem computeScores_per_record (rs : List Record) (i : ℕ) (h : i < rs.length) :
    (computeScores rs).length = rs.length ∧
    (computeScores rs).getD i 0 = scoreRecord (rs.getD i none) ∧
    (recordRaises (rs.getD i none) → (computeScores rs).getD i 0 = 1/2) := by
  refine ⟨computeScores_length rs, computeScores_getD rs i h, fun hr => ?_⟩
  rw [computeScores_getD rs i h]
  revert hr
  cases rs.getD i none with
  | none => intro _; rfl
  | some a =>
    intro ha
    show scoreOf a = 1/2
    simp [scoreOf, show infer a = none from ha]

/-- C4, witness: a three-record batch with a malformed middle row keeps all
three scores in order and scores the malformed row `0.5`. -/
theorem computeScores_per_record_witness :
    1 < ([some deadAssignment, none, some pureMedAssignment] : List Record).length ∧
    ((computeScores [some deadAssignment, none, some pureMedAssignment]).length =
      ([some deadAssignment, none, some pureMedAssignment] : List Record).length ∧
    (computeScores [some deadAssignment, none, some pureMedAssignment]).getD 1 0 =
      scoreRecord (([some deadAssignment, none, some pureMedAssignment] : List Record).getD 1 none) ∧
    (recordRaises (([some deadAssignment, none, some pureMedAssignment] : List Record).getD 1 none) →
      (computeScores [some deadAssignment, none, some pureMedAssignment]).getD 1 0 = 1/2)) :=
  ⟨by decide, computeScores_per_record [some deadAssignment, none, some pureMedAssignment] 1 (by decide)⟩

/-- C5, confirmed: universe calibration never fails the caller — a missing
or unreadable reference dataset yields the default tuple for every
calibrated column, an absent column yields the default tuple, missing
values are excluded before the statistics (the result depends only on the
present values), and an all-missing column yields the default tuple. -/
theorem calibration_never_fails :
    (∀ col, col ∈ calibCols →
      (loadDataQuantiles none).lookup col = some defaultQuint) ∧
    (∀ (t : Table), ∀ col, col ∈ calibCols → t.lookup col = none →
      (loadDataQuantiles (some t)).lookup col = some defaultQuint) ∧
    (∀ v1 v2 : List (Option ℚ), v1.filterMap id = v2.filterMap id →
      computeQuantiles v1 = computeQuantiles v2) ∧
    (∀ vals : List (Option ℚ), vals.filterMap id = [] →
      computeQuantiles vals = defaultQuint) := by
  refine ⟨?_, ?_, ?_, ?_⟩
  · intro col hcol
    fin_cases hcol <;> rfl
  · intro t col hcol ht
    fin_cases hcol <;>
      simp [loadDataQuantiles, calibCols, List.lookup, ht]
  · intro v1 v2 hv
    simp only [computeQuantiles, hv]
  · intro vals hv
    simp [computeQuantiles, hv]

/-- C5, witness: a missing dataset, a table lacking the `BMI` column, a
column with one missing value, and an all-missing column all take the
graceful paths. -/
theorem calibration_never_fails_witness :
    (loadDataQuantiles none).lookup "BMI" = some defaultQuint ∧
    (loadDataQuantiles (some [("Age", [some 2])])).lookup "BMI" = some defaultQuint ∧
    computeQuantiles [none, some 1] = computeQuantiles [some 1] ∧
    computeQuantiles [none] = defaultQuint :=
  ⟨calibration_never_fails.1 "BMI" (by decide),
   calibration_never_fails.2.1 [("Age", [some 2])] "BMI" (by decide) rfl,
   calibration_never_fails.2.2.1 [none, some 1] [some 1] rfl,
   calibration_never_fails.2.2.2 [none] rfl⟩

/-- C9, confirmed: with Age at the `young` midpoint, GenHlth at the `good`
midpoint, HighBP = 0, Smoker = 0, PhysActivity = 1, HighChol = 0 and
HeartDiseaseorAttack = 0, the inferred risk score is non-decreasing as BMI
sweeps the universe sample points from the `healthy` midpoint (`0.5`) to
the top of the `obese` region (`1`). -/
theorem bmi_monotone_sweep :
    List.Chain' (fun u v => u ≤ v) (bmiSweep.map (fun b => scoreOf (baselineAt b))) :=
  (nondecr_iff_chain _).mp (by decide!)

/-- C10, witness: the default grid reversed (`start = 0.8 ≥ stop = 0.2`,
step `0.02`) yields the empty grid and the default pair `(0.5, -1)`. -/
theorem empty_grid_default_witness :
    arangeQ (4/5) (1/5) (1/50) = [] ∧
    selectThreshold .f1 [1/2] [true] (4/5) (1/5) (1/50) = (1/2, -1) :=
  empty_grid_default (4/5) (1/5) (1/50) (by norm_num) (by norm_num) .f1 [1/2] [true]

end FuzzyDiab
